import Mathlib

/-!
Verification of the widget-loading subsystem of the web-shell repository.

The embedding follows `src/lib/widgetLoader.ts` (the `WidgetRegistry`,
`WidgetMetadata`, `WidgetValidator` classes) and the load sequence of
`src/components/widgets/WidgetRenderer.tsx`.  JavaScript `Map` objects are
modelled as insertion-ordered association lists; asynchronous control flow is
modelled as an explicit state machine whose steps are the synchronous segments
between `await` suspension points.
-/

namespace WebShell

/-! ### Association lists modelling JavaScript `Map` -/

/-- `Map.get`: the value stored under `k`, if any (first matching entry). -/
def lookupKey {α : Type} : List (String × α) → String → Option α
  | [], _ => none
  | (k', v) :: rest, k => if k' = k then some v else lookupKey rest k

/-- `Map.set`: replace the entry for `k` in place, else append at the end
(JavaScript maps preserve insertion order). -/
def setKey {α : Type} : List (String × α) → String → α → List (String × α)
  | [], k, v => [(k, v)]
  | (k', v') :: rest, k, v =>
      if k' = k then (k, v) :: rest else (k', v') :: setKey rest k v

/-- `Map.delete`: remove the entry for `k` (first matching entry). -/
def eraseKey {α : Type} : List (String × α) → String → List (String × α)
  | [], _ => []
  | (k', v') :: rest, k => if k' = k then rest else (k', v') :: eraseKey rest k

/-- Number of entries stored under `k` (a well-formed map has at most one). -/
def countKey {α : Type} (m : List (String × α)) (k : String) : Nat :=
  (m.filter (fun e => e.1 = k)).length

/-! ### String utilities of the loader

`splitOnChar` models JavaScript `String.prototype.split` with a one-character
separator: `"".split(c)` is `[""]` and adjacent separators yield empty chunks.
-/

/-- JavaScript `split` with a single-character separator, on character lists. -/
def splitOnChar (sep : Char) : List Char → List (List Char)
  | [] => [[]]
  | c :: rest =>
      let r := splitOnChar sep rest
      if c = sep then [] :: r
      else
        match r with
        | [] => [[c]]
        | w :: ws => (c :: w) :: ws

/-- `word.charAt(0).toUpperCase() + word.slice(1)` on a character list. -/
def capitalizeWord : List Char → List Char
  | [] => []
  | c :: rest => c.toUpper :: rest

/-- `WidgetRegistry.getGlobalName` (source lines 117–123): replace each of the
characters `@`, `/`, `-` by a space, split at spaces, capitalize the first
character of each word, and concatenate. -/
def getGlobalName (packageName : String) : String :=
  String.mk
    (List.flatten
      ((splitOnChar ' '
          (packageName.data.map
            (fun c => if c = '@' ∨ c = '/' ∨ c = '-' then ' ' else c))).map
        capitalizeWord))

/-- The derivation rule in the words of claim C5: replace every
non-alphanumeric character by a space, capitalize each word, concatenate. -/
def claimGlobalName (packageName : String) : String :=
  String.mk
    (List.flatten
      ((splitOnChar ' '
          (packageName.data.map
            (fun c => if c.isAlphanum then c else ' '))).map
        capitalizeWord))

/-- `version || "latest"`: an absent — or empty, hence falsy — version string
defaults to `"latest"`. -/
def orLatest : Option String → String
  | none => "latest"
  | some v => if v = "" then "latest" else v

/-- The cache key `` `${packageName}@${version || "latest"}` ``. -/
def mkCacheKey (packageName : String) (version : Option String) : String :=
  packageName ++ "@" ++ orLatest version

/-! ### The widget registry (`WidgetRegistry`, source lines 4–176)

`loadWidget` is asynchronous; its behaviour is modelled as a state machine.
`loadWidgetStart` is the synchronous prefix of a `loadWidget` call up to the
`await` on the loading promise: it either answers from the terminal cache
(`widgets`), attaches to an in-flight promise (`loadingPromises`), or starts a
new resolution (a `loadWidgetFromRegistry` call).  `settleSuccess` and
`settleFailure` are the two continuations after the `await`; `clearCache`
empties both maps.  Component handles and promise identities are represented
by natural numbers, and `resolutions` is a ghost log recording every
resolution attempt that was ever started, with its cache key and promise. -/

structure RegistryState where
  widgets : List (String × Nat)
  loadingPromises : List (String × Nat)
  nextPromiseId : Nat
  resolutions : List (String × Nat)
deriving DecidableEq, Repr

/-- The value a `loadWidget` call hands back at its first suspension point:
a terminal cache hit, the promise of an in-flight load, or the promise of the
resolution this very call just started. -/
inductive LoadCall where
  | cached (component : Nat)
  | pending (promiseId : Nat)
  | started (promiseId : Nat)
deriving DecidableEq, Repr

/-- `WidgetRegistry.loadWidget`, synchronous prefix (source lines 19–34). -/
def loadWidgetStart (packageName : String) (version : Option String)
    (s : RegistryState) : LoadCall × RegistryState :=
  match lookupKey s.widgets (mkCacheKey packageName version) with
  | some c => (.cached c, s)
  | none =>
      match lookupKey s.loadingPromises (mkCacheKey packageName version) with
      | some p => (.pending p, s)
      | none =>
          (.started s.nextPromiseId,
            { widgets := s.widgets
              loadingPromises :=
                setKey s.loadingPromises (mkCacheKey packageName version)
                  s.nextPromiseId
              nextPromiseId := s.nextPromiseId + 1
              resolutions :=
                s.resolutions ++
                  [(mkCacheKey packageName version, s.nextPromiseId)] })

/-- `WidgetRegistry.loadWidget`, continuation after a successful `await`
(source lines 37–40): store the component, drop the in-flight entry. -/
def settleSuccess (packageName : String) (version : Option String)
    (component : Nat) (s : RegistryState) : RegistryState :=
  { s with
    widgets := setKey s.widgets (mkCacheKey packageName version) component
    loadingPromises :=
      eraseKey s.loadingPromises (mkCacheKey packageName version) }

/-- `WidgetRegistry.loadWidget`, continuation after a failed `await`
(source lines 41–44): drop the in-flight entry, rethrow. -/
def settleFailure (packageName : String) (version : Option String)
    (s : RegistryState) : RegistryState :=
  { s with
    loadingPromises :=
      eraseKey s.loadingPromises (mkCacheKey packageName version) }

/-- `WidgetRegistry.clearCache` (source lines 160–163). -/
def clearCache (s : RegistryState) : RegistryState :=
  { s with widgets := [], loadingPromises := [] }

/-- Any single step the registry's methods can take on its state. -/
inductive RegistryOp where
  | load (packageName : String) (version : Option String)
  | succeed (packageName : String) (version : Option String) (component : Nat)
  | fail (packageName : String) (version : Option String)
  | clear
deriving DecidableEq, Repr

def applyOp : RegistryOp → RegistryState → RegistryState
  | .load n v, s => (loadWidgetStart n v s).2
  | .succeed n v c, s => settleSuccess n v c s
  | .fail n v, s => settleFailure n v s
  | .clear, s => clearCache s

/-- `WidgetRegistry.getLoadedWidgets` (source lines 168–175): each reported
entry is obtained by destructuring `cacheKey.split("@")` into its first two
elements (`undefined`, i.e. `none`, when absent). -/
def getLoadedWidgets (s : RegistryState) :
    List (Option String × Option String) :=
  s.widgets.map (fun e =>
    (((splitOnChar '@' e.1.data).map String.mk)[0]?,
     ((splitOnChar '@' e.1.data).map String.mk)[1]?))

/-! ### CDN fallback (`WidgetRegistry.loadFromCDN`, source lines 75–111) -/

/-- The CDN URL `https://unpkg.com/<name>@<version>/dist/index.umd.js`. -/
def cdnUrl (packageName version : String) : String :=
  "https://unpkg.com/" ++ packageName ++ "@" ++ version ++
    "/dist/index.umd.js"

/-- The browser event that settles the injected script element: `onload`
(carrying the value of `window[globalName]` after the script ran, `none` when
the expected global is absent) or `onerror`. -/
inductive ScriptEvent where
  | onload (globalValue : Option Nat)
  | onerror
deriving DecidableEq, Repr

deriving instance DecidableEq for Except

/-- How a `loadFromCDN` promise settles, and whether the handler removed the
injected script element from `document.head`. -/
structure CDNOutcome where
  result : Except String Nat
  scriptRemoved : Bool
deriving DecidableEq, Repr

/-- The event handlers installed by `WidgetRegistry.loadFromCDN` (source lines
86–107): on `onload` with the global present, resolve and remove the script;
on `onload` with the global absent, reject and return *before* the removal
statement; on `onerror`, remove the script and reject with the CDN URL. -/
def loadFromCDN (packageName version : String) : ScriptEvent → CDNOutcome
  | .onload (some w) => ⟨.ok w, true⟩
  | .onload none =>
      ⟨.error ("Widget " ++ packageName ++ " not found on window." ++
        getGlobalName packageName), false⟩
  | .onerror =>
      ⟨.error ("Failed to load widget from CDN: " ++ cdnUrl packageName
        version), true⟩

/-! ### JavaScript runtime values

The validator inspects configuration values only through `typeof`, so a
runtime value is modelled by its observable shape. -/

inductive JSValue where
  | vstring (s : String)
  | vnumber (n : Int)
  | vboolean (b : Bool)
  | vundefined
  | vnull
  | vobject
  | vfunction
deriving DecidableEq, Repr

/-- The JavaScript `typeof` operator on the modelled values. -/
def jsTypeof : JSValue → String
  | .vstring _ => "string"
  | .vnumber _ => "number"
  | .vboolean _ => "boolean"
  | .vundefined => "undefined"
  | .vnull => "object"
  | .vobject => "object"
  | .vfunction => "function"

/-- `String.prototype.toLowerCase` (character-wise, as the validator uses
it on ASCII type names). -/
def strToLower (s : String) : String := String.mk (s.data.map Char.toLower)

/-! ### Manifests (`WidgetManifest`, source lines 187–209) -/

/-- One entry of the `props` schema of a manifest.  `required` is an optional
boolean in the source; its truthiness collapses to a `Bool`. -/
structure PropConfig where
  type : String
  required : Bool := false
  defaultValue : Option JSValue := none
  docText : Option String := none
deriving DecidableEq, Repr

structure PreviewConfig where
  width : Option Int := none
  height : Option Int := none
  backgroundColor : Option String := none
deriving DecidableEq, Repr

structure WidgetManifest where
  name : String
  version : String
  manifestDescr : String
  author : String
  repository : Option String := none
  homepage : Option String := none
  keywords : List String := []
  props : Option (List (String × PropConfig)) := none
  preview : Option PreviewConfig := none
deriving DecidableEq, Repr

/-! ### Validation (`WidgetValidator.validateProps`, source lines 292–325) -/

structure ValidationResult where
  isValid : Bool
  errors : List String
deriving DecidableEq, Repr

/-- The body of the `forEach` over `Object.entries(manifest.props)` (source
lines 303–319), pushing onto the running error list: a missing-required-prop
check, then a `typeof` check guarded by the truthiness of `propConfig.type`
(an empty type string is falsy and skips the check). -/
def validatePropStep (props : List (String × JSValue)) (errors : List String)
    (entry : String × PropConfig) : List String :=
  let errors :=
    if entry.2.required ∧ lookupKey props entry.1 = none then
      errors ++ ["Required prop '" ++ entry.1 ++ "' is missing"]
    else errors
  match lookupKey props entry.1 with
  | some v =>
      if entry.2.type ≠ "" then
        if jsTypeof v ≠ strToLower entry.2.type ∧
            strToLower entry.2.type ≠ "any" then
          errors ++ ["Prop '" ++ entry.1 ++ "' should be of type '" ++
            strToLower entry.2.type ++ "', got '" ++ jsTypeof v ++ "'"]
        else errors
      else errors
  | none => errors

/-- `WidgetValidator.validateProps`: aggregate all errors over the declared
props; `isValid` is `errors.length === 0`.  A manifest without a `props`
schema validates trivially. -/
def validateProps (props : List (String × JSValue))
    (manifest : WidgetManifest) : ValidationResult :=
  match manifest.props with
  | none => ⟨true, []⟩
  | some declared =>
      let errors := declared.foldl (validatePropStep props) []
      ⟨errors.isEmpty, errors⟩

/-- The per-prop errors demanded by claim C6 read literally: a
missing-required error when the prop is absent, and a type error whenever the
prop is present and its `typeof` differs from the (lower-cased) declared type,
unless the declared type is `any` — with no exemption for an empty declared
type string. -/
def claimPropErrors (props : List (String × JSValue))
    (entry : String × PropConfig) : List String :=
  (if entry.2.required ∧ lookupKey props entry.1 = none then
    ["Required prop '" ++ entry.1 ++ "' is missing"]
  else []) ++
  (match lookupKey props entry.1 with
   | some v =>
       if jsTypeof v ≠ strToLower entry.2.type ∧
           strToLower entry.2.type ≠ "any" then
         ["Prop '" ++ entry.1 ++ "' should be of type '" ++
           strToLower entry.2.type ++ "', got '" ++ jsTypeof v ++ "'"]
       else []
   | none => [])

/-- The per-prop errors of the amended claim C6: as `claimPropErrors`, but a
prop whose declared type is the empty string (falsy in the source's guard) is
exempt from the type check. -/
def amendedPropErrors (props : List (String × JSValue))
    (entry : String × PropConfig) : List String :=
  (if entry.2.required ∧ lookupKey props entry.1 = none then
    ["Required prop '" ++ entry.1 ++ "' is missing"]
  else []) ++
  (match lookupKey props entry.1 with
   | some v =>
       if entry.2.type ≠ "" ∧ jsTypeof v ≠ strToLower entry.2.type ∧
           strToLower entry.2.type ≠ "any" then
         ["Prop '" ++ entry.1 ++ "' should be of type '" ++
           strToLower entry.2.type ++ "', got '" ++ jsTypeof v ++ "'"]
       else []
   | none => [])

/-! ### Manifest loading (`WidgetMetadata`, source lines 214–268) -/

/-- `packageJson.repository` — only its optional `url` field is read. -/
structure RepositoryInfo where
  url : Option String := none
deriving DecidableEq, Repr

structure WidgetConfigSection where
  props : Option (List (String × PropConfig)) := none
  preview : Option PreviewConfig := none
deriving DecidableEq, Repr

/-- The fields of a fetched `package.json` that `loadManifest` reads. -/
structure PackageJson where
  name : String
  version : String
  pkgDescr : Option String := none
  author : Option String := none
  repository : Option RepositoryInfo := none
  homepage : Option String := none
  keywords : Option (List String) := none
  widgetConfig : Option WidgetConfigSection := none
deriving DecidableEq, Repr

/-- Source lines 242–252: projection of a `package.json` into a manifest. -/
def projectManifest (p : PackageJson) : WidgetManifest :=
  { name := p.name
    version := p.version
    manifestDescr := p.pkgDescr.getD ""
    author := p.author.getD ""
    repository := p.repository.bind (fun r => r.url)
    homepage := p.homepage
    keywords := p.keywords.getD []
    props := p.widgetConfig.bind (fun w => w.props)
    preview := p.widgetConfig.bind (fun w => w.preview) }

/-- The manifest URL `https://unpkg.com/<name>@<version|latest>/package.json`
(source line 232). -/
def manifestUrl (packageName : String) (version : Option String) : String :=
  "https://unpkg.com/" ++ packageName ++ "@" ++ orLatest version ++
    "/package.json"

/-- What the single `fetch` + `response.json()` of `loadManifest` can yield:
a network error (the `fetch` rejects), a non-success HTTP status
(`response.ok` false), a body that fails to parse, or a parsed
`package.json`. -/
inductive FetchOutcome where
  | networkError
  | badStatus (statusText : String)
  | parseError
  | success (pkg : PackageJson)
deriving DecidableEq, Repr

def fetchFailed : FetchOutcome → Bool
  | .success _ => false
  | _ => true

/-- `WidgetMetadata.loadManifest` (source lines 220–260): answer from the
manifest cache when possible; otherwise fetch, and either project + cache the
manifest or — for every failure outcome, via the surrounding `try/catch` —
return `null` leaving the cache untouched.  The result triple is
(returned value, cache afterwards, whether a network fetch was issued).
The function is total: no failure escapes as an exception. -/
def loadManifest (packageName : String) (version : Option String)
    (fetch : FetchOutcome) (cache : List (String × WidgetManifest)) :
    Option WidgetManifest × List (String × WidgetManifest) × Bool :=
  match lookupKey cache (mkCacheKey packageName version) with
  | some m => (some m, cache, false)
  | none =>
      match fetch with
      | .success pkg =>
          (some (projectManifest pkg),
            setKey cache (mkCacheKey packageName version)
              (projectManifest pkg),
            true)
      | _ => (none, cache, true)

/-! ### The renderer's load sequence (`WidgetRenderer.tsx`, lines 114–164) -/

/-- The outcome of one `loadWidget` attempt of the renderer: the component
stored on success, the message of the `WidgetError` stored in the error
state, and whether `widgetRegistry.loadWidget` was invoked at all. -/
structure RenderOutcome where
  component : Option Nat
  error : Option String
  registryInvoked : Bool
deriving DecidableEq, Repr

/-- `Array.prototype.join(", ")` on the error list. -/
def joinComma : List String → String
  | [] => ""
  | [s] => s
  | s :: rest => s ++ ", " ++ joinComma rest

/-- The module-load tail of the renderer's sequence: `widgetRegistry.
loadWidget` is invoked; its settled outcome is `registryResult`.  The
registry rejects with a plain `Error`, so the catch block wraps it into a
`WidgetError` with message `Failed to load widget <packageName>`. -/
def rendererModuleLoad (packageName : String)
    (registryResult : Except String Nat) : RenderOutcome :=
  match registryResult with
  | .ok c => ⟨some c, none, true⟩
  | .error _ => ⟨none, some ("Failed to load widget " ++ packageName), true⟩

/-- `WidgetRenderer.loadWidget` after the manifest fetch settles
(`manifestResult` is its value, `null` on failure): when the manifest is
present and declares a `props` schema, validation gates the module load —
an invalid configuration throws a `WidgetError` that the catch block turns
into the error state, without invoking the registry. -/
def rendererLoadWidget (packageName : String)
    (configuration : List (String × JSValue))
    (manifestResult : Option WidgetManifest)
    (registryResult : Except String Nat) : RenderOutcome :=
  match manifestResult with
  | some manifest =>
      if manifest.props.isSome then
        if (validateProps configuration manifest).isValid then
          rendererModuleLoad packageName registryResult
        else
          { component := none
            error := some ("Invalid configuration: " ++
              joinComma (validateProps configuration manifest).errors)
            registryInvoked := false }
      else rendererModuleLoad packageName registryResult
  | none => rendererModuleLoad packageName registryResult

/-- The amended derivation rule of claim C5: exactly the characters `@`, `/`
and `-` are replaced by spaces before splitting and capitalizing. -/
def amendedGlobalName (packageName : String) : String :=
  String.mk
    (List.flatten
      ((splitOnChar ' '
          (packageName.data.map
            (fun c => if c ∈ ['@', '/', '-'] then ' ' else c))).map
        capitalizeWord))

/-- A concrete manifest whose schema declares one required prop `title`,
used to instantiate validation-gating statements. -/
def requiredTitleManifest : WidgetManifest :=
  { name := "m"
    version := "1"
    manifestDescr := ""
    author := ""
    props := some [("title", { type := "string", required := true })] }

/-! ### Map lemmas -/

theorem countKey_cons {α : Type} (k₀ : String) (v₀ : α)
    (rest : List (String × α)) (k : String) :
    countKey ((k₀, v₀) :: rest) k =
      countKey rest k + (if k₀ = k then 1 else 0) := by
  by_cases hk : k₀ = k <;> simp [countKey, List.filter_cons, hk]

theorem countKey_append {α : Type} (m l : List (String × α)) (k : String) :
    countKey (m ++ l) k = countKey m k + countKey l k := by
  simp [countKey, List.filter_append]

theorem lookupKey_none_countKey {α : Type} {m : List (String × α)} {k : String}
    (h : lookupKey m k = none) : countKey m k = 0 := by
  induction m with
  | nil => rfl
  | cons e rest ih =>
      obtain ⟨k', v'⟩ := e
      by_cases hk : k' = k
      · simp [lookupKey, hk] at h
      · simp only [lookupKey, if_neg hk] at h
        rw [countKey_cons, ih h, if_neg hk]

theorem setKey_of_lookup_none {α : Type} {m : List (String × α)} {k : String}
    (v : α) (h : lookupKey m k = none) : setKey m k v = m ++ [(k, v)] := by
  induction m with
  | nil => rfl
  | cons e rest ih =>
      obtain ⟨k', v'⟩ := e
      by_cases hk : k' = k
      · simp [lookupKey, hk] at h
      · simp only [lookupKey, if_neg hk] at h
        simp [setKey, hk, ih h]

theorem lookupKey_setKey_self {α : Type} (m : List (String × α)) (k : String)
    (v : α) : lookupKey (setKey m k v) k = some v := by
  induction m with
  | nil => simp [setKey, lookupKey]
  | cons e rest ih =>
      obtain ⟨k', v'⟩ := e
      by_cases hk : k' = k
      · simp [setKey, hk, lookupKey]
      · simp [setKey, hk, lookupKey, ih]

theorem eraseKey_of_lookup_none {α : Type} {m : List (String × α)} {k : String}
    (h : lookupKey m k = none) : eraseKey m k = m := by
  induction m with
  | nil => rfl
  | cons e rest ih =>
      obtain ⟨k', v'⟩ := e
      by_cases hk : k' = k
      · simp [lookupKey, hk] at h
      · simp only [lookupKey, if_neg hk] at h
        simp [eraseKey, hk, ih h]

theorem eraseKey_setKey_of_none {α : Type} {m : List (String × α)} {k : String}
    (v : α) (h : lookupKey m k = none) : eraseKey (setKey m k v) k = m := by
  induction m with
  | nil => simp [setKey, eraseKey]
  | cons e rest ih =>
      obtain ⟨k', v'⟩ := e
      by_cases hk : k' = k
      · simp [lookupKey, hk] at h
      · simp only [lookupKey, if_neg hk] at h
        simp [setKey, hk, eraseKey, ih h]

theorem countKey_setKey_self_of_none {α : Type} {m : List (String × α)}
    {k : String} (v : α) (h : lookupKey m k = none) :
    countKey (setKey m k v) k = 1 := by
  rw [setKey_of_lookup_none v h, countKey_append, lookupKey_none_countKey h]
  simp [countKey]

theorem countKey_setKey_ne {α : Type} (m : List (String × α)) {k' k : String}
    (v : α) (h : k' ≠ k) : countKey (setKey m k' v) k = countKey m k := by
  induction m with
  | nil => simp [setKey, countKey, h]
  | cons e rest ih =>
      obtain ⟨k₀, v₀⟩ := e
      by_cases hk : k₀ = k'
      · subst hk
        rw [setKey, if_pos rfl, countKey_cons, countKey_cons, if_neg h]
      · rw [setKey, if_neg hk, countKey_cons, countKey_cons, ih]

theorem countKey_eraseKey_le {α : Type} (m : List (String × α))
    (k' k : String) : countKey (eraseKey m k') k ≤ countKey m k := by
  induction m with
  | nil => exact Nat.le_refl 0
  | cons e rest ih =>
      obtain ⟨k₀, v₀⟩ := e
      by_cases hk : k₀ = k'
      · rw [eraseKey, if_pos hk, countKey_cons]
        omega
      · rw [eraseKey, if_neg hk, countKey_cons, countKey_cons]
        omega

/-- Every registry step preserves "at most one in-flight entry per key". -/
theorem inflight_le_one_preserved (k : String) (op : RegistryOp)
    (s : RegistryState) (h : countKey s.loadingPromises k ≤ 1) :
    countKey (applyOp op s).loadingPromises k ≤ 1 := by
  cases op with
  | load n v =>
      simp only [applyOp, loadWidgetStart]
      cases hw : lookupKey s.widgets (mkCacheKey n v) with
      | some c => exact h
      | none =>
          cases hl : lookupKey s.loadingPromises (mkCacheKey n v) with
          | some p => exact h
          | none =>
              by_cases hk : mkCacheKey n v = k
              · subst hk
                simp [countKey_setKey_self_of_none _ hl]
              · simp [countKey_setKey_ne _ _ hk, h]
  | succeed n v c =>
      exact Nat.le_trans (countKey_eraseKey_le _ _ _) h
  | fail n v =>
      exact Nat.le_trans (countKey_eraseKey_le _ _ _) h
  | clear =>
      simp [applyOp, clearCache, countKey]

/-! ### Claims about the registry -/

/-- **C1.** A second `loadWidget` call for the same cache key issued while a
first call's resolution is still unresolved returns the very same pending
promise without changing the registry state; the ghost log shows exactly one
resolution attempt was started for that key; after the first call exactly one
in-flight entry exists for the key; and every registry step preserves "at
most one in-flight entry per cache key". -/
theorem loadWidget_coalesces (packageName : String) (version : Option String)
    (s s₁ : RegistryState) (p : Nat)
    (h : loadWidgetStart packageName version s = (.started p, s₁)) :
    loadWidgetStart packageName version s₁ = (.pending p, s₁) ∧
    countKey s₁.resolutions (mkCacheKey packageName version) =
      countKey s.resolutions (mkCacheKey packageName version) + 1 ∧
    countKey s₁.loadingPromises (mkCacheKey packageName version) = 1 ∧
    (∀ (k : String) (op : RegistryOp) (t : RegistryState),
      countKey t.loadingPromises k ≤ 1 →
      countKey (applyOp op t).loadingPromises k ≤ 1) := by
  cases hw : lookupKey s.widgets (mkCacheKey packageName version) with
  | some c => simp [loadWidgetStart, hw] at h
  | none =>
      cases hl : lookupKey s.loadingPromises (mkCacheKey packageName version)
          with
      | some q => simp [loadWidgetStart, hw, hl] at h
      | none =>
          simp only [loadWidgetStart, hw, hl, Prod.mk.injEq,
            LoadCall.started.injEq] at h
          obtain ⟨hp, hs⟩ := h
          subst hp
          subst hs
          refine ⟨?_, ?_, ?_, inflight_le_one_preserved⟩
          · simp [loadWidgetStart, hw, lookupKey_setKey_self]
          · simp [countKey_append, countKey_cons, countKey]
          · exact countKey_setKey_self_of_none _ hl

/-- Witness for C1: on an empty registry, a first call starts promise 0 and a
second call attaches to that same promise, leaving the state unchanged. -/
theorem loadWidget_coalesces_witness :
    loadWidgetStart "simple-widget" none
        ⟨[], [("simple-widget@latest", 0)], 1, [("simple-widget@latest", 0)]⟩ =
      (.pending 0,
        ⟨[], [("simple-widget@latest", 0)], 1,
          [("simple-widget@latest", 0)]⟩) :=
  (loadWidget_coalesces "simple-widget" none ⟨[], [], 0, []⟩
      ⟨[], [("simple-widget@latest", 0)], 1, [("simple-widget@latest", 0)]⟩ 0
      (by decide)).1

/-- **C2.** When a resolution started by `loadWidget` fails, the settlement
removes the in-flight entry and creates no terminal entry: both maps are back
to their state before the load, and a subsequent call for the same key starts
a full new resolution. -/
theorem loadWidget_failure_resets (packageName : String)
    (version : Option String) (s s₁ : RegistryState) (p : Nat)
    (h : loadWidgetStart packageName version s = (.started p, s₁)) :
    (settleFailure packageName version s₁).widgets = s.widgets ∧
    lookupKey (settleFailure packageName version s₁).widgets
      (mkCacheKey packageName version) = none ∧
    (settleFailure packageName version s₁).loadingPromises =
      s.loadingPromises ∧
    (loadWidgetStart packageName version
        (settleFailure packageName version s₁)).1 =
      .started (settleFailure packageName version s₁).nextPromiseId := by
  cases hw : lookupKey s.widgets (mkCacheKey packageName version) with
  | some c => simp [loadWidgetStart, hw] at h
  | none =>
      cases hl : lookupKey s.loadingPromises (mkCacheKey packageName version)
          with
      | some q => simp [loadWidgetStart, hw, hl] at h
      | none =>
          simp only [loadWidgetStart, hw, hl, Prod.mk.injEq,
            LoadCall.started.injEq] at h
          obtain ⟨hp, hs⟩ := h
          subst hp
          subst hs
          refine ⟨rfl, hw, ?_, ?_⟩
          · exact eraseKey_setKey_of_none _ hl
          · simp [loadWidgetStart, settleFailure, hw,
              eraseKey_setKey_of_none _ hl, hl]

/-- Witness for C2: after a started load fails on an empty registry, the
in-flight map is empty again. -/
theorem loadWidget_failure_resets_witness :
    (settleFailure "simple-widget" none
        ⟨[], [("simple-widget@latest", 0)], 1,
          [("simple-widget@latest", 0)]⟩).loadingPromises = [] :=
  (loadWidget_failure_resets "simple-widget" none ⟨[], [], 0, []⟩
      ⟨[], [("simple-widget@latest", 0)], 1, [("simple-widget@latest", 0)]⟩ 0
      (by decide)).2.2.1

/-- Counterexample to **C4** as stated: start a load on an empty registry,
call `clearCache` while it is in flight, then let it settle successfully.
The terminal cache now *does* hold an entry for the key (the settlement
handler stores unconditionally), where the claim demands it holds none. -/
theorem clearCache_orphan_counterexample :
    lookupKey
      (settleSuccess "widget-a" (some "1.0.0") 7
          (clearCache
            (loadWidgetStart "widget-a" (some "1.0.0")
              ⟨[], [], 0, []⟩).2)).widgets
      (mkCacheKey "widget-a" (some "1.0.0")) = some 7 := by decide

/-- **C4 (amended).** `clearCache` does not cancel an in-flight resolution,
and when the orphaned operation later settles successfully its result *is*
stored in the terminal cache: the settlement handler writes the component
unconditionally, so the cleared registry gains a terminal entry for the key
even without any fresh request. -/
theorem clearCache_orphan_stores (packageName : String)
    (version : Option String) (component : Nat) (s : RegistryState) :
    lookupKey
      (settleSuccess packageName version component (clearCache s)).widgets
      (mkCacheKey packageName version) = some component := by
  simp [settleSuccess, clearCache, lookupKey_setKey_self]

/-- Counterexample to **C3** as stated: when the CDN script loads but the
expected global is absent, the `onload` handler rejects and returns *before*
the `removeChild` statement, so the script element is not removed. -/
theorem loadFromCDN_missing_global_counterexample :
    loadFromCDN "simple-widget" "1.0.0" (.onload none) =
      ⟨.error "Widget simple-widget not found on window.SimpleWidget",
        false⟩ := by decide

/-- **C3 (amended).** The injected script element is removed after a load
with the expected global present and after a script error event — but *not*
in the outcome where the script loads and the expected global variable is
absent, where the promise rejects with `not found on window.<name>` and the
element stays in the document.  The error event rejects with a message
carrying the attempted CDN URL. -/
theorem loadFromCDN_script_removal (packageName version : String) :
    (∀ w, loadFromCDN packageName version (.onload (some w)) =
      ⟨.ok w, true⟩) ∧
    loadFromCDN packageName version .onerror =
      ⟨.error ("Failed to load widget from CDN: " ++
        cdnUrl packageName version), true⟩ ∧
    loadFromCDN packageName version (.onload none) =
      ⟨.error ("Widget " ++ packageName ++ " not found on window." ++
        getGlobalName packageName), false⟩ :=
  ⟨fun _ => rfl, rfl, rfl⟩

/-- Counterexample to **C5** as stated: the source replaces only `@`, `/` and
`-`, not every non-alphanumeric character.  On `"a.b"` the code yields
`"A.b"` while the claimed derivation rule yields `"AB"`. -/
theorem getGlobalName_counterexample :
    getGlobalName "a.b" = "A.b" ∧ claimGlobalName "a.b" = "AB" ∧
      getGlobalName "a.b" ≠ claimGlobalName "a.b" :=
  ⟨by decide, by decide, by decide⟩

/-- **C5 (amended).** The global name is derived by replacing exactly the
characters `@`, `/` and `-` by spaces, capitalizing the first character of
each resulting word and concatenating; the two examples of the claim hold. -/
theorem getGlobalName_spec :
    (∀ packageName, getGlobalName packageName =
      amendedGlobalName packageName) ∧
    getGlobalName "@widget-library/hero-banner" =
      "WidgetLibraryHeroBanner" ∧
    getGlobalName "simple-widget" = "SimpleWidget" := by
  refine ⟨fun s => ?_, by decide, by decide⟩
  have hfun : (fun c : Char => if c = '@' ∨ c = '/' ∨ c = '-' then ' ' else c)
      = (fun c : Char => if c ∈ ['@', '/', '-'] then ' ' else c) := by
    funext c
    by_cases hc : c = '@' ∨ c = '/' ∨ c = '-'
    · rw [if_pos hc, if_pos (by simpa using hc)]
    · rw [if_neg hc, if_neg (by simpa using hc)]
  unfold getGlobalName amendedGlobalName
  rw [hfun]

/-- **C9.** `getLoadedWidgets` reports each cache entry by destructuring the
key at `@`: after loading scoped package `@scope/widget` at version `1.0.0`
(cache key `@scope/widget@1.0.0`), the reported pair is the empty package
name and the segment between the two `@` characters — not the original
(packageName, version) pair. -/
theorem getLoadedWidgets_scoped (component : Nat) :
    getLoadedWidgets
        (settleSuccess "@scope/widget" (some "1.0.0") component
          ⟨[], [], 0, []⟩) = [(some "", some "scope/widget")] ∧
    [((some "" : Option String), (some "scope/widget" : Option String))] ≠
      [((some "@scope/widget" : Option String),
        (some "1.0.0" : Option String))] := by
  exact ⟨rfl, by decide⟩

/-! ### Claims about the validator, the metadata loader and the renderer -/

theorem validatePropStep_append (props : List (String × JSValue))
    (errors : List String) (entry : String × PropConfig) :
    validatePropStep props errors entry =
      errors ++ validatePropStep props [] entry := by
  cases hl : lookupKey props entry.1 with
  | none =>
      simp only [validatePropStep, hl]
      by_cases hr : entry.2.required = true
      · simp [hr]
      · simp [hr]
  | some v =>
      simp only [validatePropStep, hl]
      by_cases ht : entry.2.type = ""
      · simp [ht]
      · by_cases hm : jsTypeof v ≠ strToLower entry.2.type ∧
            strToLower entry.2.type ≠ "any"
        · simp [ht, hm]
        · simp [ht, hm]

theorem foldl_validatePropStep (props : List (String × JSValue))
    (declared : List (String × PropConfig)) (init : List String) :
    declared.foldl (validatePropStep props) init =
      init ++ (declared.map (validatePropStep props [])).flatten := by
  induction declared generalizing init with
  | nil => simp
  | cons entry rest ih =>
      rw [List.foldl_cons, validatePropStep_append, List.map_cons,
        List.flatten_cons, ih, List.append_assoc]

theorem validatePropStep_eq_amended (props : List (String × JSValue))
    (entry : String × PropConfig) :
    validatePropStep props [] entry = amendedPropErrors props entry := by
  cases hl : lookupKey props entry.1 with
  | none =>
      simp only [validatePropStep, amendedPropErrors, hl]
      by_cases hr : entry.2.required = true
      · simp [hr]
      · simp [hr]
  | some v =>
      simp only [validatePropStep, amendedPropErrors, hl]
      by_cases ht : entry.2.type = ""
      · simp [ht]
      · by_cases hm : jsTypeof v ≠ strToLower entry.2.type ∧
            strToLower entry.2.type ≠ "any"
        · simp [ht, hm]
        · simp [ht, hm]

/-- Counterexample to **C6** as stated: a prop declared with the empty type
string.  `typeof 5` is `"number"`, which differs from the declared type, and
the declared type is not `"any"`, so the claim demands a type-mismatch error;
the source's truthiness guard on `propConfig.type` skips the check and the
code returns no error (and `isValid` true). -/
theorem validateProps_empty_type_counterexample :
    validateProps [("x", .vnumber 5)]
        { name := "m", version := "1", manifestDescr := "", author := "",
          props := some [("x", { type := "" })] } = ⟨true, []⟩ ∧
    ([("x", ({ type := "" } : PropConfig))].map
        (claimPropErrors [("x", .vnumber 5)])).flatten =
      ["Prop 'x' should be of type '', got 'number'"] ∧
    ([] : List String) ≠ ["Prop 'x' should be of type '', got 'number'"] :=
  ⟨by decide, by decide, by decide⟩

/-- **C6 (amended).** `validateProps` returns `isValid` true iff its error
list is empty, and the error list is exactly the concatenation, over the
declared props in order, of: a `Required prop '<name>' is missing` error for
each required prop absent from the supplied props, and a
`Prop '<name>' should be of type '<type>', got '<actual>'` error (with the
declared type lower-cased) for each prop present in the supplied props whose
`typeof` differs from the lower-cased declared type — except when the
declared type is `any` or the empty string.  A manifest with no `props`
schema yields `isValid` true with no errors. -/
theorem validateProps_spec (props : List (String × JSValue))
    (manifest : WidgetManifest) :
    ((validateProps props manifest).isValid = true ↔
      (validateProps props manifest).errors = []) ∧
    (validateProps props manifest).errors =
      (match manifest.props with
       | none => []
       | some declared =>
           (declared.map (amendedPropErrors props)).flatten) := by
  cases hm : manifest.props with
  | none => simp [validateProps, hm]
  | some declared =>
      constructor
      · simp [validateProps, hm, List.isEmpty_iff]
      · simp only [validateProps, hm]
        rw [foldl_validatePropStep, List.nil_append,
          show validatePropStep props [] = amendedPropErrors props from
            funext (validatePropStep_eq_amended props)]

/-- **C7.** `loadManifest` never throws: with the cache key absent, every
failure outcome yields `null` and leaves the cache untouched, while a
successful fetch returns the projected manifest and stores it under
`name@version`; once an entry is cached, every later call for the same key
returns it unchanged without fetching. -/
theorem loadManifest_contract (packageName : String) (version : Option String)
    (cache : List (String × WidgetManifest)) :
    (∀ fetch, fetchFailed fetch = true →
      lookupKey cache (mkCacheKey packageName version) = none →
      loadManifest packageName version fetch cache = (none, cache, true)) ∧
    (∀ pkg, lookupKey cache (mkCacheKey packageName version) = none →
      loadManifest packageName version (.success pkg) cache =
        (some (projectManifest pkg),
          setKey cache (mkCacheKey packageName version) (projectManifest pkg),
          true) ∧
      lookupKey
        (setKey cache (mkCacheKey packageName version) (projectManifest pkg))
        (mkCacheKey packageName version) = some (projectManifest pkg)) ∧
    (∀ m fetch, lookupKey cache (mkCacheKey packageName version) = some m →
      loadManifest packageName version fetch cache = (some m, cache, false))
    := by
  refine ⟨?_, ?_, ?_⟩
  · intro fetch hf hc
    cases fetch with
    | networkError => simp [loadManifest, hc]
    | badStatus st => simp [loadManifest, hc]
    | parseError => simp [loadManifest, hc]
    | success pkg => simp [fetchFailed] at hf
  · intro pkg hc
    exact ⟨by simp [loadManifest, hc], lookupKey_setKey_self _ _ _⟩
  · intro m fetch hc
    simp [loadManifest, hc]

/-- Witness for C7: a network error on an empty cache yields `null` and an
unchanged cache. -/
theorem loadManifest_contract_witness :
    loadManifest "simple-widget" none .networkError [] = (none, [], true) :=
  (loadManifest_contract "simple-widget" none []).1 .networkError rfl rfl

/-- **C10.** `loadManifest` memoizes only successes: whenever a call returns
`null`, the cache is unchanged and holds no entry for the key, so the next
call for the same key issues a fresh network fetch. -/
theorem loadManifest_failure_not_memoized (packageName : String)
    (version : Option String) (fetch : FetchOutcome)
    (cache cache' : List (String × WidgetManifest)) (fetchIssued : Bool)
    (h : loadManifest packageName version fetch cache =
      (none, cache', fetchIssued)) :
    cache' = cache ∧
    lookupKey cache' (mkCacheKey packageName version) = none ∧
    ∀ fetch₂,
      (loadManifest packageName version fetch₂ cache').2.2 = true := by
  cases hc : lookupKey cache (mkCacheKey packageName version) with
  | some m => simp [loadManifest, hc] at h
  | none =>
      have hcache : cache' = cache := by
        cases fetch with
        | networkError =>
            simp only [loadManifest, hc, Prod.mk.injEq, true_and] at h
            exact h.1.symm
        | badStatus st =>
            simp only [loadManifest, hc, Prod.mk.injEq, true_and] at h
            exact h.1.symm
        | parseError =>
            simp only [loadManifest, hc, Prod.mk.injEq, true_and] at h
            exact h.1.symm
        | success pkg => simp [loadManifest, hc] at h
      subst hcache
      refine ⟨rfl, hc, fun fetch₂ => ?_⟩
      cases fetch₂ with
      | networkError => simp [loadManifest, hc]
      | badStatus st => simp [loadManifest, hc]
      | parseError => simp [loadManifest, hc]
      | success pkg => simp [loadManifest, hc]

/-- Witness for C10: after a failed load left the cache empty, a second call
(here ending in a parse error) issues a fetch again. -/
theorem loadManifest_failure_not_memoized_witness :
    (loadManifest "simple-widget" none .parseError
        ([] : List (String × WidgetManifest))).2.2 = true :=
  (loadManifest_failure_not_memoized "simple-widget" none .networkError [] []
      true (by decide)).2.2 .parseError

/-- **C8.** In the renderer's load sequence, the registry's module loader is
skipped exactly when a fetched manifest declares a `props` schema and
validation of the supplied configuration fails; in that case the attempt
lands directly in the error state (`Invalid configuration: …`, no component).
In every other situation — validation passes, no schema, or no manifest —
the module load proceeds. -/
theorem renderer_validation_gates (packageName : String)
    (configuration : List (String × JSValue))
    (manifestResult : Option WidgetManifest)
    (registryResult : Except String Nat) :
    ((rendererLoadWidget packageName configuration manifestResult
        registryResult).registryInvoked = false ↔
      (∃ manifest, manifestResult = some manifest ∧
        manifest.props.isSome = true ∧
        (validateProps configuration manifest).isValid = false)) ∧
    (∀ manifest, manifestResult = some manifest →
      manifest.props.isSome = true →
      (validateProps configuration manifest).isValid = false →
      rendererLoadWidget packageName configuration manifestResult
          registryResult =
        ⟨none, some ("Invalid configuration: " ++
          joinComma (validateProps configuration manifest).errors),
          false⟩) := by
  constructor
  · cases manifestResult with
    | none =>
        cases registryResult with
        | ok c => simp [rendererLoadWidget, rendererModuleLoad]
        | error e => simp [rendererLoadWidget, rendererModuleLoad]
    | some manifest =>
        by_cases hp : manifest.props.isSome = true
        · by_cases hv : (validateProps configuration manifest).isValid = true
          · cases registryResult with
            | ok c => simp [rendererLoadWidget, rendererModuleLoad, hp, hv]
            | error e => simp [rendererLoadWidget, rendererModuleLoad, hp, hv]
          · simp [rendererLoadWidget, hp, hv,
              Bool.not_eq_true (validateProps configuration manifest).isValid]
        · cases registryResult with
          | ok c =>
              simp [rendererLoadWidget, rendererModuleLoad, hp]
          | error e =>
              simp [rendererLoadWidget, rendererModuleLoad, hp]
  · intro manifest hm hp hv
    subst hm
    simp [rendererLoadWidget, hp, hv]

/-- Witness for C8: a manifest requiring prop `title`, an empty
configuration, and a registry result that would succeed — the renderer lands
in the error state without invoking the registry. -/
theorem renderer_validation_gates_witness :
    rendererLoadWidget "simple-widget" [] (some requiredTitleManifest)
        (.ok 3) =
      ⟨none, some ("Invalid configuration: " ++
        joinComma (validateProps [] requiredTitleManifest).errors),
        false⟩ :=
  (renderer_validation_gates "simple-widget" [] (some requiredTitleManifest)
      (.ok 3)).2 requiredTitleManifest rfl (by decide) (by decide)

end WebShell
